import Mathlib

/-!
Verification development for the langchain SQL-agent repository.

The file shallowly embeds the Python sources:
  * `src/src/sql_agent/model.py` (context manager, status-event generator),
  * `src/src/api/main.py` (streaming endpoint composition),
  * `src/prototype/sql_agent_langgraph.py` (cache/feedback store keyed by
    md5 signatures, the langgraph correction loop),
  * `src/prototype/sql_agent_anthropic_v2.py` (rate limiter).

External collaborators (the LLM backend, the SQL database, `json.loads`)
are modelled as explicit oracle parameters; everything the repository's own
code computes is translated directly.
-/

/-- Model of a Python/JSON value as produced by `json.loads` and held in the
dynamically typed attributes of `SQLAgent` (`src/src/sql_agent/model.py`). -/
inductive PyVal where
  | null : PyVal
  | bool : Bool → PyVal
  | int : Int → PyVal
  | str : String → PyVal
  | list : List PyVal → PyVal
  | dict : List (String × PyVal) → PyVal

/-- Python `dict.get(key)`: first binding for the key, if any.  (The dicts the
agent builds have distinct keys, so left-to-right lookup is faithful.) -/
def pyGet : List (String × PyVal) → String → Option PyVal
  | [], _ => none
  | (k, v) :: rest, key => if k = key then some v else pyGet rest key

/-- The mutable conversation state of `SQLAgent`: `self.conversation_history`
and `self.last_query_result`.  Both are dynamically typed in Python (an
external `update` may store any JSON value in them), so both are `PyVal`. -/
structure AgentCtx where
  conversation_history : PyVal
  last_query_result : PyVal

/-- JSON string escaping as done by `json.dumps` (quote and backslash; the
values the agent serializes contain no control characters). -/
def jsonEscape (s : String) : String :=
  s.data.foldl
    (fun acc c =>
      if c = '"' then acc ++ "\\\""
      else if c = '\\' then acc ++ "\\\\"
      else acc.push c) ""

mutual

/-- Serialization of a `PyVal` in the format of Python's `json.dumps` with its
default separators (`", "` between items, `": "` after keys). -/
def pyDumps : PyVal → String
  | .null => "null"
  | .bool b => if b then "true" else "false"
  | .int n => toString n
  | .str s => "\"" ++ jsonEscape s ++ "\""
  | .list xs => "[" ++ pyDumpsItems xs ++ "]"
  | .dict fs => "\x7b" ++ pyDumpsFields fs ++ "\x7d"

/-- Comma-separated rendering of a JSON array's items. -/
def pyDumpsItems : List PyVal → String
  | [] => ""
  | [x] => pyDumps x
  | x :: y :: rest => pyDumps x ++ ", " ++ pyDumpsItems (y :: rest)

/-- Comma-separated rendering of a JSON object's key/value pairs. -/
def pyDumpsFields : List (String × PyVal) → String
  | [] => ""
  | [(k, v)] => "\"" ++ jsonEscape k ++ "\": " ++ pyDumps v
  | (k, v) :: p :: rest =>
      "\"" ++ jsonEscape k ++ "\": " ++ pyDumps v ++ ", " ++ pyDumpsFields (p :: rest)

end

/-- `SQLAgent._get_context` (`model.py` lines 252-257): serializes the two
context fields as a JSON object. -/
def get_context (st : AgentCtx) : String :=
  pyDumps (.dict [("conversation_history", st.conversation_history),
                  ("last_query_result", st.last_query_result)])

/-- `SQLAgent._update_context` (`model.py` lines 259-270).  `json.loads` is an
external library call, passed in as `loads`; `loads s = none` models a raised
`json.JSONDecodeError` (which the method catches).  A successfully parsed
non-dict value makes the Python method raise an uncaught `AttributeError` on
`.get`, modelled by the outer `none`. -/
def update_context (loads : String → Option PyVal) (st : AgentCtx)
    (new_context : String) : Option (AgentCtx × String) :=
  match loads new_context with
  | none => some (st, "Error: Invalid JSON format for context update")
  | some (.dict fs) =>
      some ({ conversation_history :=
                (pyGet fs "conversation_history").getD st.conversation_history,
              last_query_result :=
                (pyGet fs "last_query_result").getD st.last_query_result },
            "Context updated successfully")
  | some _ => none

/-- Python whitespace, as stripped by `str.strip()`. -/
def isPySpace (c : Char) : Bool :=
  c = ' ' || c = '\t' || c = '\n' || c = '\r' || c = '\x0b' || c = '\x0c'

/-- Python `str.strip()`: remove leading and trailing whitespace. -/
def pyStrip (s : String) : String :=
  String.mk (((s.data.dropWhile isPySpace).reverse.dropWhile isPySpace).reverse)

/-- `SQLAgent.manage_context` (`model.py` lines 243-250): dispatches on the
action string; `"update: ..."` strips the `"update:"` mark and trims. -/
def manage_context (loads : String → Option PyVal) (st : AgentCtx)
    (action : String) : Option (AgentCtx × String) :=
  if action = "get" then some (st, get_context st)
  else if action.startsWith "update:" then
    update_context loads st (pyStrip (action.drop 7))
  else
    some (st, "Invalid action. Use 'get' to retrieve context or 'update: <new_context>' to update it.")

/-- `SQLAgent._update_conversation_history` (`model.py` lines 272-275):
appends `{"human": question, "ai": answer}`, then pops the oldest entry once
if the length exceeds 10.  Appending requires the history to currently be a
Python list; otherwise the method raises (`none`). -/
def update_conversation_history (st : AgentCtx) (question answer : String) :
    Option AgentCtx :=
  match st.conversation_history with
  | .list xs =>
      let xs2 := xs ++ [PyVal.dict [("human", .str question), ("ai", .str answer)]]
      some { st with conversation_history :=
              PyVal.list (if xs2.length > 10 then xs2.tail else xs2) }
  | _ => none

/-- Length of the conversation history when it is a list. -/
def historyLength (st : AgentCtx) : Option Nat :=
  match st.conversation_history with
  | .list xs => some xs.length
  | _ => none

/-! ## Status stream: `SQLAgent.process_query` and the API endpoint -/

/-- One chunk of the langchain agent's `astream` output, as inspected by
`SQLAgent.process_query` (`model.py` lines 216-230): a chunk carries either
an `actions` list, an `intermediate_steps` list, or an `output`. -/
inductive Chunk where
  | actions : List String → Chunk
  | intermediateSteps : List String → Chunk
  | output : String → Chunk

/-- Events a single chunk makes `process_query` yield. -/
def chunkEvents : Chunk → List (String × String)
  | .actions tools => tools.map (fun t => ("Executing", "Running action: " ++ t))
  | .intermediateSteps steps => steps.map (fun s => ("Intermediate Step", s))
  | .output _ => [("Finalizing", "Preparing the final answer")]

/-- `SQLAgent.process_query` (`model.py` lines 196-233) as a function of the
externally supplied agent behaviour: `preErr` models an exception raised
before the `"Processing"` yield (example retrieval), `chunks` the streamed
agent chunks, `streamErr` an exception raised by the stream afterwards.
Every exception inside the `try` is caught and yielded as an `"Error"`
event; the generator itself never raises. -/
def process_query (preErr : Option String) (chunks : List Chunk)
    (streamErr : Option String) : List (String × String) :=
  ("Initializing", "Starting to process your query") ::
    match preErr with
    | some e => [("Error", "An error occurred: " ++ e)]
    | none =>
        ("Processing", "Analyzing the query and generating SQL") ::
          ((chunks.map chunkEvents).flatten ++
            match streamErr with
            | some e => [("Error", "An error occurred: " ++ e)]
            | none => [])

/-- `process_query_with_updates` (`src/src/api/main.py` lines 21-38): relays
the generator's events, then appends the `"Final Answer"` event, and — only
when the generator yielded nothing at all — appends the diagnostic `"Error"`
event after it. -/
def process_query_with_updates (events : List (String × String))
    (finalAnswer : String) : List (String × String) :=
  events ++ [("Final Answer", finalAnswer)] ++
    (if events.isEmpty then
      [("Error", "No updates received from the SQL agent")]
    else [])

/-- A step name is terminal in the sense of the spec when it is
`"Final Answer"` (the endpoint's spelling of `FinalAnswer`) or `"Error"`. -/
def isTerminalStep (step : String) : Bool :=
  step = "Final Answer" || step = "FinalAnswer" || step = "Error"

/-- Number of terminal events in a stream. -/
def terminalCount (events : List (String × String)) : Nat :=
  (events.filter (fun e => isTerminalStep e.1)).length

/-! ## Cache/feedback signatures: `hashlib.md5(query.encode()).hexdigest()`

`sql_agent_langgraph.py` keys its SQLite cache and feedback tables by the
md5 hex digest of the raw query text.  `hashlib.md5` is the standard MD5
algorithm (RFC 1321); it is implemented here over `Nat` with explicit
reduction mod 2^32. -/

/-- UTF-8 encoding of one character (Python `str.encode()`). -/
def utf8Bytes (c : Char) : List Nat :=
  let n := c.toNat
  if n < 128 then [n]
  else if n < 2048 then [192 + n / 64, 128 + n % 64]
  else if n < 65536 then [224 + n / 4096, 128 + (n / 64) % 64, 128 + n % 64]
  else [240 + n / 262144, 128 + (n / 4096) % 64, 128 + (n / 64) % 64, 128 + n % 64]

/-- UTF-8 bytes of a string (Python `query.encode()`). -/
def strBytes (s : String) : List Nat :=
  (s.data.map utf8Bytes).flatten

/-- The 64 MD5 sine-table constants `K[i] = floor(2^32 * |sin(i+1)|)`. -/
def md5K : List Nat :=
  [0xd76aa478, 0xe8c7b756, 0x242070db, 0xc1bdceee,
   0xf57c0faf, 0x4787c62a, 0xa8304613, 0xfd469501,
   0x698098d8, 0x8b44f7af, 0xffff5bb1, 0x895cd7be,
   0x6b901122, 0xfd987193, 0xa679438e, 0x49b40821,
   0xf61e2562, 0xc040b340, 0x265e5a51, 0xe9b6c7aa,
   0xd62f105d, 0x02441453, 0xd8a1e681, 0xe7d3fbc8,
   0x21e1cde6, 0xc33707d6, 0xf4d50d87, 0x455a14ed,
   0xa9e3e905, 0xfcefa3f8, 0x676f02d9, 0x8d2a4c8a,
   0xfffa3942, 0x8771f681, 0x6d9d6122, 0xfde5380c,
   0xa4beea44, 0x4bdecfa9, 0xf6bb4b60, 0xbebfbc70,
   0x289b7ec6, 0xeaa127fa, 0xd4ef3085, 0x04881d05,
   0xd9d4d039, 0xe6db99e5, 0x1fa27cf8, 0xc4ac5665,
   0xf4292244, 0x432aff97, 0xab9423a7, 0xfc93a039,
   0x655b59c3, 0x8f0ccc92, 0xffeff47d, 0x85845dd1,
   0x6fa87e4f, 0xfe2ce6e0, 0xa3014314, 0x4e0811a1,
   0xf7537e82, 0xbd3af235, 0x2ad7d2bb, 0xeb86d391]

/-- The per-round left-rotation amounts. -/
def md5S : List Nat :=
  [7, 12, 17, 22, 7, 12, 17, 22, 7, 12, 17, 22, 7, 12, 17, 22,
   5, 9, 14, 20, 5, 9, 14, 20, 5, 9, 14, 20, 5, 9, 14, 20,
   4, 11, 16, 23, 4, 11, 16, 23, 4, 11, 16, 23, 4, 11, 16, 23,
   6, 10, 15, 21, 6, 10, 15, 21, 6, 10, 15, 21, 6, 10, 15, 21]

/-- 32-bit left rotation. -/
def rotl32 (x n : Nat) : Nat :=
  ((x <<< n) % 4294967296) ||| (x >>> (32 - n))

/-- The MD5 round function for round `i` (bitwise complement is taken within
32 bits via xor with `2^32 - 1`). -/
def md5F (i b c d : Nat) : Nat :=
  if i < 16 then (b &&& c) ||| ((b ^^^ 4294967295) &&& d)
  else if i < 32 then (d &&& b) ||| ((d ^^^ 4294967295) &&& c)
  else if i < 48 then b ^^^ c ^^^ d
  else c ^^^ (b ||| (d ^^^ 4294967295))

/-- The message-word index used in round `i`. -/
def md5G (i : Nat) : Nat :=
  if i < 16 then i
  else if i < 32 then (5 * i + 1) % 16
  else if i < 48 then (3 * i + 5) % 16
  else (7 * i) % 16

/-- One MD5 round applied to the state `(a, b, c, d)` on block `M`. -/
def md5Round (M : List Nat) (st : Nat × Nat × Nat × Nat) (i : Nat) :
    Nat × Nat × Nat × Nat :=
  let (a, b, c, d) := st
  let f := (md5F i b c d + a + md5K.getD i 0 + M.getD (md5G i) 0) % 4294967296
  (d, (b + rotl32 f (md5S.getD i 0)) % 4294967296, b, c)

/-- Process one 16-word block: 64 rounds, then add into the running state. -/
def md5Block (st : Nat × Nat × Nat × Nat) (M : List Nat) :
    Nat × Nat × Nat × Nat :=
  let (a0, b0, c0, d0) := st
  let (a, b, c, d) := (List.range 64).foldl (md5Round M) st
  ((a0 + a) % 4294967296, (b0 + b) % 4294967296,
   (c0 + c) % 4294967296, (d0 + d) % 4294967296)

/-- The 8 little-endian bytes of the 64-bit message bit length. -/
def leBytes8 (n : Nat) : List Nat :=
  [n % 256, n / 256 % 256, n / 65536 % 256, n / 16777216 % 256,
   n / 4294967296 % 256, n / 1099511627776 % 256,
   n / 281474976710656 % 256, n / 72057594037927936 % 256]

/-- MD5 padding: a `0x80` byte, zeros to 56 mod 64, then the bit length. -/
def md5Pad (bytes : List Nat) : List Nat :=
  bytes ++ 128 :: List.replicate ((55 + 64 - bytes.length % 64) % 64) 0 ++
    leBytes8 (8 * bytes.length)

/-- Little-endian packing of bytes into 32-bit words. -/
def leWords : List Nat → List Nat
  | b0 :: b1 :: b2 :: b3 :: rest =>
      (b0 + 256 * b1 + 65536 * b2 + 16777216 * b3) :: leWords rest
  | _ => []

/-- Split a word list into 16-word blocks (`fuel` bounds the recursion). -/
def chunksOf16 : Nat → List Nat → List (List Nat)
  | 0, _ => []
  | _, [] => []
  | fuel + 1, ws => ws.take 16 :: chunksOf16 fuel (ws.drop 16)

/-- The MD5 state after absorbing all blocks of the padded message. -/
def md5Core (s : String) : Nat × Nat × Nat × Nat :=
  let ws := leWords (md5Pad (strBytes s))
  (chunksOf16 ws.length ws).foldl md5Block
    (0x67452301, 0xefcdab89, 0x98badcfe, 0x10325476)

/-- One lowercase hex digit. -/
def hexDigit (n : Nat) : Char :=
  if n < 10 then Char.ofNat (48 + n) else Char.ofNat (87 + n)

/-- Two lowercase hex digits of a byte. -/
def byteHex (b : Nat) : List Char :=
  [hexDigit (b / 16), hexDigit (b % 16)]

/-- Hex rendering of one state word, little-endian byte order as in the MD5
digest. -/
def wordHex (w : Nat) : List Char :=
  byteHex (w % 256) ++ byteHex (w / 256 % 256) ++
    byteHex (w / 65536 % 256) ++ byteHex (w / 16777216 % 256)

/-- `hashlib.md5(s.encode()).hexdigest()`: the 32-character lowercase hex MD5
digest of a string.  This is the signature function of the cache and
feedback tables in `sql_agent_langgraph.py` (lines 55, 71, 79). -/
def md5_hex (s : String) : String :=
  match md5Core s with
  | (a, b, c, d) => String.mk (wordHex a ++ wordHex b ++ wordHex c ++ wordHex d)

/-! ## CacheFeedbackStore: the SQLite tables of `sql_agent_langgraph.py` -/

/-- A row of the `query_cache` table (minus the key column): the raw query,
its stored result, and the `timestamp` column. -/
structure CacheRow where
  rawQuery : String
  result : String
  storedAt : Nat

/-- A row of the `query_feedback` table (minus the key column). -/
structure FeedbackRow where
  rawQuery : String
  success_count : Nat
  failure_count : Nat
  last_used : Nat

/-- The two SQLite tables, keyed by the md5 hex signature.  Primary-key
semantics make each an association list with distinct keys. -/
structure Store where
  query_cache : List (String × CacheRow)
  query_feedback : List (String × FeedbackRow)

/-- `SELECT ... WHERE key = ?` on a primary-key table. -/
def tableGet {α : Type} : List (String × α) → String → Option α
  | [], _ => none
  | (k, v) :: rest, key => if k = key then some v else tableGet rest key

/-- `INSERT OR REPLACE` / upsert on a primary-key table: replaces the row in
place when the key exists, appends otherwise. -/
def tableUpsert {α : Type} (l : List (String × α)) (key : String)
    (update : α → α) (fresh : α) : List (String × α) :=
  match l with
  | [] => [(key, fresh)]
  | (k, v) :: rest =>
      if k = key then (k, update v) :: rest
      else (k, v) :: tableUpsert rest key update fresh

/-- `record_query_success` (`sql_agent_langgraph.py` lines 70-76): insert
`(1, 0)` counters or bump `success_count`, updating `last_used` either way.
The stored `query` column is not rewritten on conflict. -/
def record_query_success (st : Store) (query : String) (now : Nat) : Store :=
  let fb := tableUpsert st.query_feedback (md5_hex query)
    (fun r => { r with success_count := r.success_count + 1, last_used := now })
    ⟨query, 1, 0, now⟩
  { st with query_feedback := fb }

/-- `record_query_failure` (`sql_agent_langgraph.py` lines 78-84): insert
`(0, 1)` counters or bump `failure_count`, updating `last_used`. -/
def record_query_failure (st : Store) (query : String) (now : Nat) : Store :=
  let fb := tableUpsert st.query_feedback (md5_hex query)
    (fun r => { r with failure_count := r.failure_count + 1, last_used := now })
    ⟨query, 0, 1, now⟩
  { st with query_feedback := fb }

/-- `db_query_tool` (`sql_agent_langgraph.py` lines 112-119) minus the cache
decorator.  `dbRun` models `db.run_no_throw`: the relational store executes
whatever statement it is given and returns its textual result (`""` for an
empty/failed run, which Python's `if not result` catches).  An empty result
records a failure and returns the retry message; any other result records a
success.  No statement-kind inspection occurs. -/
def db_query_tool (dbRun : String → String) (now : Nat) (st : Store)
    (query : String) : Store × String :=
  let result := dbRun query
  if result = "" then
    (record_query_failure st query now,
     "Error: Query failed. Please rewrite your query and try again.")
  else
    (record_query_success st query now, result)

/-- The `cache_query` decorator applied to `db_query_tool`
(`sql_agent_langgraph.py` lines 52-67): look the signature up in
`query_cache`; on a hit return the cached result unchanged (no feedback
write), on a miss run the wrapped function and `INSERT OR REPLACE` whatever
it returned — error messages included — into the cache.  (The in-process
`lru_cache` layer is a further memoization that also bypasses feedback
writes on repeats; it is not modelled separately because it only short-cuts
the same hit path.) -/
def cached_db_query (dbRun : String → String) (now : Nat) (st : Store)
    (query : String) : Store × String :=
  let h := md5_hex query
  match tableGet st.query_cache h with
  | some row => (st, row.result)
  | none =>
      let (st1, result) := db_query_tool dbRun now st query
      let qc := tableUpsert st1.query_cache h (fun _ => ⟨query, result, now⟩)
        ⟨query, result, now⟩
      ({ st1 with query_cache := qc }, result)

/-- Success counter currently recorded for a query's signature. -/
def successCount (st : Store) (query : String) : Nat :=
  ((tableGet st.query_feedback (md5_hex query)).map
    (fun r => r.success_count)).getD 0

/-- Failure counter currently recorded for a query's signature. -/
def failureCount (st : Store) (query : String) : Nat :=
  ((tableGet st.query_feedback (md5_hex query)).map
    (fun r => r.failure_count)).getD 0

/-! ## RateLimiter: `rate_limited_agent_invoke` in `sql_agent_anthropic_v2.py`

Wall-clock instants and durations are modelled as integers.  The module
holds one process-wide `last_call_time`; `min_delay` is the configured
minimum spacing. -/

/-- The gate at the top of `rate_limited_agent_invoke` (lines 147-151): if
less than `minDelay` has passed since `last_call_time`, sleep exactly the
difference.  The returned instant is when execution proceeds. -/
def rl_acquire (minDelay lastCall now : Int) : Int :=
  if now - lastCall < minDelay then now + (minDelay - (now - lastCall)) else now

/-- One full call of `rate_limited_agent_invoke` (lines 147-171), given the
shared `last_call_time`, the arrival instant, whether the input text is in
`query_cache` (early return, lines 155-156), whether `agent.invoke`
completes without raising, and the duration of the invoke.  Returns the
instant the call proceeded past the gate and the new `last_call_time`:
the global is rewritten only on the successful uncached path (line 163);
a cache hit returns before reaching it and an exception skips it. -/
def rl_invoke_step (minDelay lastCall now : Int) (cacheHit succeeds : Bool)
    (dur : Int) : Int × Int :=
  let grant := rl_acquire minDelay lastCall now
  if cacheHit then (grant, lastCall)
  else if succeeds then (grant, grant + dur)
  else (grant, lastCall)

/-! ## CorrectionStateMachine: the langgraph workflow of `sql_agent_langgraph.py` -/

/-- A langchain tool call: name, JSON arguments (as a `PyVal` dict) and id. -/
structure ToolCall where
  name : String
  args : PyVal
  id : String

/-- A message in the graph state: `HumanMessage`, `AIMessage` (with tool
calls) or `ToolMessage`. -/
inductive Msg where
  | human : String → Msg
  | ai : String → List ToolCall → Msg
  | tool : String → String → Msg

/-- `getattr(message, "tool_calls", None)`: only `AIMessage` has the
attribute (`[]` and the absent attribute are both falsy in the source's
truthiness test, so they coincide here). -/
def msgToolCalls : Msg → List ToolCall
  | .ai _ tcs => tcs
  | _ => []

/-- `message.content`. -/
def msgContent : Msg → String
  | .human c => c
  | .ai c _ => c
  | .tool c _ => c

/-- Python's `str.startswith`: character-prefix test. -/
def pyStartsWith (s p : String) : Bool :=
  p.data.isPrefixOf s.data

/-- Routing outcomes of the conditional edge after `query_gen`. -/
inductive Route where
  | stop
  | correctQuery
  | queryGen
  deriving DecidableEq

/-- `agent_should_continue` (`sql_agent_langgraph.py` lines 184-189), as a
function of `messages[-1]`: a truthy `tool_calls` ends the graph; otherwise
a content starting with `"Error:"` routes back to `query_gen` and anything
else goes to `correct_query`. -/
def agent_should_continue (last : Msg) : Route :=
  match msgToolCalls last with
  | _ :: _ => .stop
  | [] =>
      if pyStartsWith (msgContent last) "Error:" then .queryGen
      else .correctQuery

/-- The correction message `query_gen_node` appends for a wrong tool call. -/
def wrongToolMsg (tc : ToolCall) : Msg :=
  .tool ("Error: The wrong tool was called: " ++ tc.name ++ ". Please fix your mistakes.")
    tc.id

/-- `query_gen_node` (`sql_agent_langgraph.py` lines 166-178): appends the
LLM's message followed by one correction `ToolMessage` per tool call whose
name is not `SubmitFinalAnswer`. -/
def query_gen_node (message : Msg) : List Msg :=
  message ::
    (msgToolCalls message).filterMap (fun tc =>
      if tc.name ≠ "SubmitFinalAnswer" then some (wrongToolMsg tc) else none)

/-- The nodes of the compiled workflow. -/
inductive GNode where
  | firstToolCall
  | listTablesTool
  | getSchemaTool
  | queryGen
  | correctQuery
  | executeQuery

/-- External behaviour feeding the graph: the LLM completions consumed by
`query_gen` and `correct_query`, and the `ToolMessage`s produced by the
three tool nodes (schema listing and query execution against the store).
Each is a function of the current message list. -/
structure Oracles where
  genMsg : List Msg → Msg
  checkMsg : List Msg → Msg
  toolMsgs : GNode → List Msg → List Msg

/-- The messages one node execution appends (`add_messages` semantics).
`first_tool_call` (lines 137-145) is the fixed table-listing tool call. -/
def nodeStep (o : Oracles) (n : GNode) (msgs : List Msg) : List Msg :=
  match n with
  | .firstToolCall =>
      [.ai "To answer your question, I first need to understand the database structure. Let me list the available tables."
        [⟨"sql_db_list_tables", .dict [], "tool_list_tables"⟩]]
  | .listTablesTool => o.toolMsgs .listTablesTool msgs
  | .getSchemaTool => o.toolMsgs .getSchemaTool msgs
  | .queryGen => query_gen_node (o.genMsg msgs)
  | .correctQuery => [o.checkMsg msgs]
  | .executeQuery => o.toolMsgs .executeQuery msgs

/-- The workflow edges (`sql_agent_langgraph.py` lines 192-198): fixed edges
plus the conditional edge from `query_gen`; `none` is `END`. -/
def nextNode (n : GNode) (msgsAfter : List Msg) : Option GNode :=
  match n with
  | .firstToolCall => some .listTablesTool
  | .listTablesTool => some .getSchemaTool
  | .getSchemaTool => some .queryGen
  | .queryGen =>
      match agent_should_continue ((msgsAfter.getLast? ).getD (.human "")) with
      | .stop => none
      | .correctQuery => some .correctQuery
      | .queryGen => some .queryGen
  | .correctQuery => some .executeQuery
  | .executeQuery => some .queryGen

/-- The `GraphRecursionError` langgraph raises when `recursion_limit`
super-steps are exhausted before reaching `END`. -/
def recursionErrorMsg : String := "GraphRecursionError: recursion limit reached"

/-- 1 for the `query_gen` node, 0 otherwise: instrumentation counting how
often the generation step runs. -/
def countInc : GNode → Nat
  | .queryGen => 1
  | _ => 0

/-- Executing the compiled graph with a super-step budget (langgraph's
`recursion_limit`).  Returns the final message list or the recursion error,
along with how many times the `query_gen` node ran. -/
def runGraph (o : Oracles) : Nat → GNode → List Msg → Nat →
    Except String (List Msg) × Nat
  | 0, _, _, cnt => (.error recursionErrorMsg, cnt)
  | fuel + 1, n, msgs, cnt =>
      match nextNode n (msgs ++ nodeStep o n msgs) with
      | none => (.ok (msgs ++ nodeStep o n msgs), cnt + countInc n)
      | some n1 => runGraph o fuel n1 (msgs ++ nodeStep o n msgs) (cnt + countInc n)

/-- Extraction of the final answer from the last message
(`process_user_query`, lines 204-209). -/
def extractFinalAnswer (final : Msg) : String :=
  match final with
  | .ai _ tcs =>
      match (tcs.filter (fun tc => tc.name = "SubmitFinalAnswer")).head? with
      | some tc =>
          match pyGet (match tc.args with | .dict fs => fs | _ => []) "final_answer" with
          | some (.str s) => s
          | _ => "I apologize, but I couldn't generate a proper answer to your query."
      | none => "I apologize, but I couldn't generate a proper answer to your query."
  | _ => "I apologize, but I couldn't generate a proper answer to your query."

/-- `process_user_query` (`sql_agent_langgraph.py` lines 202-209): invoke the
compiled graph with `recursion_limit = 100` on the user's message; a raised
`GraphRecursionError` propagates to the caller (`.error`). -/
def process_user_query (o : Oracles) (user_query : String) :
    Except String String :=
  match (runGraph o 100 .firstToolCall [.human user_query] 0).1 with
  | .error e => .error e
  | .ok msgs => .ok (extractFinalAnswer ((msgs.getLast?).getD (.human "")))

/-! ## Theorems -/

/-- C6: for every non-deserializable (malformed JSON) input, `_update_context`
catches the decode error, reports the invalid-format message, and leaves
the conversation context (history and lastResult) exactly unchanged. -/
theorem update_context_malformed_atomic
    (loads : String → Option PyVal) (st : AgentCtx) (s : String)
    (h : loads s = none) :
    update_context loads st s =
      some (st, "Error: Invalid JSON format for context update") := by
  simp [update_context, h]

theorem update_context_malformed_atomic_witness :
    (fun _ : String => (none : Option PyVal)) "not json" = none ∧
    update_context (fun _ => none) ⟨.list [], .null⟩ "not json" =
      some (⟨.list [], .null⟩, "Error: Invalid JSON format for context update") :=
  ⟨rfl, update_context_malformed_atomic _ _ _ rfl⟩

/-- C10: feeding the serialized snapshot returned by `_get_context` back into
`_update_context` succeeds and restores exactly the same context state,
provided `json.loads` inverts `json.dumps` on that snapshot (the standard
library round-trip, stated as the hypothesis on the `loads` oracle). -/
theorem context_get_update_roundtrip
    (loads : String → Option PyVal) (st : AgentCtx)
    (h : loads (get_context st) =
      some (.dict [("conversation_history", st.conversation_history),
                   ("last_query_result", st.last_query_result)])) :
    update_context loads st (get_context st) =
      some (st, "Context updated successfully") := by
  simp [update_context, h, pyGet]

theorem context_get_update_roundtrip_witness :
    (fun _ : String =>
        some (PyVal.dict [("conversation_history", PyVal.list [.str "x"]),
                          ("last_query_result", PyVal.str "r")]))
      (get_context ⟨.list [.str "x"], .str "r"⟩) =
      some (.dict [("conversation_history", PyVal.list [.str "x"]),
                   ("last_query_result", PyVal.str "r")]) ∧
    update_context
      (fun _ =>
        some (.dict [("conversation_history", PyVal.list [.str "x"]),
                     ("last_query_result", PyVal.str "r")]))
      ⟨.list [.str "x"], .str "r"⟩ (get_context ⟨.list [.str "x"], .str "r"⟩) =
      some (⟨.list [.str "x"], .str "r"⟩, "Context updated successfully") :=
  ⟨rfl, context_get_update_roundtrip _ _ rfl⟩

/-- C5 counterexample: `_update_context` is a context mutator that can leave
the history longer than the 10-turn bound — an update whose JSON carries an
11-element history is installed verbatim, so "no mutator of the context can
leave a history longer than the bound" is false as stated. -/
theorem history_bound_broken_by_update_context :
    update_context
      (fun _ => some (.dict [("conversation_history",
        PyVal.list (List.replicate 11 .null))]))
      ⟨.list [], .null⟩ "x" =
      some (⟨PyVal.list (List.replicate 11 .null), .null⟩,
        "Context updated successfully") ∧
    historyLength ⟨PyVal.list (List.replicate 11 .null), .null⟩ = some 11 ∧
    10 < 11 :=
  ⟨rfl, rfl, by decide⟩

/-- C5 amended: the automatic mutator `_update_conversation_history` does
keep the bound — if the history holds at most 10 turns, it still holds at
most 10 after an append, and appending an 11th turn onto exactly 10 evicts
the oldest turn (FIFO), leaving exactly 10.  (`_update_context`, by
contrast, installs histories of any length; see the counterexample.) -/
theorem append_turn_preserves_bound
    (st : AgentCtx) (q a : String) (xs : List PyVal)
    (hl : st.conversation_history = PyVal.list xs) (hb : xs.length ≤ 10) :
    ∃ ys,
      update_conversation_history st q a =
        some { st with conversation_history := PyVal.list ys } ∧
      ys.length ≤ 10 ∧
      (xs.length = 10 →
        ys = xs.tail ++ [PyVal.dict [("human", .str q), ("ai", .str a)]] ∧
        ys.length = 10) := by
  by_cases h10 : xs.length = 10
  · have hne : xs ≠ [] := by
      intro hnil
      rw [hnil] at h10
      simp at h10
    have hcond : (xs ++ [PyVal.dict [("human", .str q), ("ai", .str a)]]).length > 10 := by
      simp [h10]
    refine ⟨xs.tail ++ [PyVal.dict [("human", .str q), ("ai", .str a)]], ?_, ?_, ?_⟩
    · simp only [update_conversation_history, hl]
      rw [if_pos hcond, List.tail_append_of_ne_nil hne]
    · simp [List.length_tail]
      omega
    · intro _
      refine ⟨rfl, ?_⟩
      simp [List.length_tail, h10]
  · have hcond : ¬ ((xs ++ [PyVal.dict [("human", .str q), ("ai", .str a)]]).length > 10) := by
      simp
      omega
    refine ⟨xs ++ [PyVal.dict [("human", .str q), ("ai", .str a)]], ?_, ?_, ?_⟩
    · simp only [update_conversation_history, hl]
      rw [if_neg hcond]
    · simp
      omega
    · intro hx
      exact absurd hx h10

theorem append_turn_preserves_bound_witness :
    ((⟨.list (List.replicate 10 .null), .null⟩ : AgentCtx).conversation_history =
      PyVal.list (List.replicate 10 .null)) ∧
    (List.replicate 10 PyVal.null).length ≤ 10 ∧
    (∃ ys,
      update_conversation_history ⟨.list (List.replicate 10 .null), .null⟩ "q" "a" =
        some { (⟨.list (List.replicate 10 .null), .null⟩ : AgentCtx) with
                conversation_history := PyVal.list ys } ∧
      ys.length ≤ 10 ∧
      ((List.replicate 10 PyVal.null).length = 10 →
        ys = (List.replicate 10 PyVal.null).tail ++
          [PyVal.dict [("human", .str "q"), ("ai", .str "a")]] ∧
        ys.length = 10)) :=
  ⟨rfl, by decide,
    append_turn_preserves_bound ⟨.list (List.replicate 10 .null), .null⟩ "q" "a"
      (List.replicate 10 .null) rfl (by decide)⟩

/-- No event yielded for an agent chunk is of a terminal kind. -/
theorem chunk_events_not_terminal (c : Chunk) :
    ∀ e ∈ chunkEvents c, isTerminalStep e.1 = false := by
  cases c with
  | actions ts =>
      intro e he
      simp [chunkEvents] at he
      obtain ⟨t, _, rfl⟩ := he
      show isTerminalStep "Executing" = false
      decide
  | intermediateSteps ss =>
      intro e he
      simp [chunkEvents] at he
      obtain ⟨s, _, rfl⟩ := he
      show isTerminalStep "Intermediate Step" = false
      decide
  | output o =>
      intro e he
      simp [chunkEvents] at he
      subst he
      show isTerminalStep "Finalizing" = false
      decide

/-- `terminalCount` distributes over append. -/
theorem terminalCount_append (a b : List (String × String)) :
    terminalCount (a ++ b) = terminalCount a + terminalCount b := by
  simp [terminalCount, List.filter_append]

/-- An exception-free run of the generator yields no terminal-kind event. -/
theorem process_query_no_exception_no_terminal (chunks : List Chunk) :
    terminalCount (process_query none chunks none) = 0 := by
  have hflat :
      ((chunks.map chunkEvents).flatten).filter (fun e => isTerminalStep e.1) = [] := by
    rw [List.filter_eq_nil_iff]
    intro e he
    rw [List.mem_flatten] at he
    obtain ⟨l, hl, hel⟩ := he
    rw [List.mem_map] at hl
    obtain ⟨c, _, rfl⟩ := hl
    simp [chunk_events_not_terminal c e hel]
  have h1 : isTerminalStep "Initializing" = false := by decide
  have h2 : isTerminalStep "Processing" = false := by decide
  simp [process_query, terminalCount, List.filter_cons, List.filter_append, h1, h2, hflat]

/-- C1 counterexample: a request in which the agent raises (here with message
`"boom"`) produces a stream holding two terminal-kind events — the caught
`"Error"` event and then the appended `"Final Answer"` — so the stream does
not contain exactly one terminal event, and an event follows a terminal
event. -/
theorem status_stream_counterexample :
    process_query_with_updates (process_query (some "boom") [] none) "No result" =
      [("Initializing", "Starting to process your query"),
       ("Error", "An error occurred: boom"),
       ("Final Answer", "No result")] ∧
    terminalCount
      [("Initializing", "Starting to process your query"),
       ("Error", "An error occurred: boom"),
       ("Final Answer", "No result")] = 2 :=
  ⟨rfl, by decide⟩

/-- C1 amended: (1) in an exception-free run the stream is nonempty and has
exactly one terminal-kind event, the `"Final Answer"` event, and it is last
(the generator always yields `"Initializing"` first, so the zero-event
branch is unreachable with the real generator); (2) had the generator
yielded zero events, the endpoint would emit the terminal `"Final Answer"`
first and the `"No updates received"` `"Error"` diagnostic after it —
terminal first, diagnostic last, not the other way around. -/
theorem status_stream_single_terminal_amended :
    (∀ (chunks : List Chunk) (fa : String),
      1 ≤ (process_query_with_updates (process_query none chunks none) fa).length ∧
      terminalCount (process_query_with_updates (process_query none chunks none) fa) = 1 ∧
      (process_query_with_updates (process_query none chunks none) fa).getLast? =
        some ("Final Answer", fa)) ∧
    (∀ fa : String,
      process_query_with_updates [] fa =
        [("Final Answer", fa), ("Error", "No updates received from the SQL agent")]) := by
  constructor
  · intro chunks fa
    have hne : (process_query none chunks none).isEmpty = false := by
      simp [process_query]
    have hs : process_query_with_updates (process_query none chunks none) fa =
        process_query none chunks none ++ [("Final Answer", fa)] := by
      simp [process_query_with_updates, hne]
    refine ⟨?_, ?_, ?_⟩
    · rw [hs]
      simp [process_query]
    · rw [hs, terminalCount_append, process_query_no_exception_no_terminal]
      have hFA : isTerminalStep "Final Answer" = true := by decide
      simp [terminalCount, List.filter_cons, hFA]
    · rw [hs, List.getLast?_concat]
  · intro fa
    rfl

/-- Reading back the upserted key: the updated row if it existed, the fresh
row otherwise. -/
theorem tableGet_tableUpsert_self {α : Type} (l : List (String × α)) (k : String)
    (f : α → α) (d : α) :
    tableGet (tableUpsert l k f d) k = some (((tableGet l k).map f).getD d) := by
  induction l with
  | nil => simp [tableGet, tableUpsert]
  | cons hd tl ih =>
      obtain ⟨k1, v1⟩ := hd
      by_cases hk : k1 = k
      · simp [tableGet, tableUpsert, hk]
      · simp [tableGet, tableUpsert, hk, ih]

/-- `record_query_success` bumps exactly the success counter of the query's
signature. -/
theorem successCount_record_success (st : Store) (q : String) (now : Nat) :
    successCount (record_query_success st q now) q = successCount st q + 1 := by
  simp only [successCount, record_query_success, tableGet_tableUpsert_self]
  cases tableGet st.query_feedback (md5_hex q) <;> simp

/-- `record_query_success` leaves the failure counter alone. -/
theorem failureCount_record_success (st : Store) (q : String) (now : Nat) :
    failureCount (record_query_success st q now) q = failureCount st q := by
  simp only [failureCount, record_query_success, tableGet_tableUpsert_self]
  cases tableGet st.query_feedback (md5_hex q) <;> simp

/-- `record_query_failure` bumps exactly the failure counter of the query's
signature. -/
theorem failureCount_record_failure (st : Store) (q : String) (now : Nat) :
    failureCount (record_query_failure st q now) q = failureCount st q + 1 := by
  simp only [failureCount, record_query_failure, tableGet_tableUpsert_self]
  cases tableGet st.query_feedback (md5_hex q) <;> simp

/-- `record_query_failure` leaves the success counter alone. -/
theorem successCount_record_failure (st : Store) (q : String) (now : Nat) :
    successCount (record_query_failure st q now) q = successCount st q := by
  simp only [successCount, record_query_failure, tableGet_tableUpsert_self]
  cases tableGet st.query_feedback (md5_hex q) <;> simp

/-- Helper: a cache hit short-circuits `cached_db_query` completely. -/
theorem cached_db_query_hit (dbRun : String → String) (now : Nat) (st : Store)
    (q : String) (row : CacheRow)
    (hhit : tableGet st.query_cache (md5_hex q) = some row) :
    cached_db_query dbRun now st q = (st, row.result) := by
  simp [cached_db_query, hhit]

/-- Helper: full characterization of a cache miss — the statement is
dispatched to the store, the (possibly error) result is cached under the
query's signature, and exactly one feedback counter is incremented. -/
theorem cached_db_query_miss (dbRun : String → String) (now : Nat) (st : Store)
    (q : String)
    (hmiss : tableGet st.query_cache (md5_hex q) = none) :
    cached_db_query dbRun now st q =
      (Store.mk
        (tableUpsert st.query_cache (md5_hex q)
          (fun _ => ⟨q, if dbRun q = "" then
              "Error: Query failed. Please rewrite your query and try again."
            else dbRun q, now⟩)
          ⟨q, if dbRun q = "" then
              "Error: Query failed. Please rewrite your query and try again."
            else dbRun q, now⟩)
        (if dbRun q = "" then (record_query_failure st q now).query_feedback
         else (record_query_success st q now).query_feedback),
       if dbRun q = "" then
         "Error: Query failed. Please rewrite your query and try again."
       else dbRun q) := by
  by_cases hr : dbRun q = "" <;>
    simp [cached_db_query, db_query_tool, hmiss, hr,
      record_query_failure, record_query_success]

/-- C2 counterexample: a `DELETE` statement reaching the execution tool is
not rejected: it is dispatched to the relational store (the store's response
is returned), a success feedback counter is written for its signature, and
its result is cached — there is no `PolicyViolation` fail-fast anywhere in
the execution path. -/
theorem mutating_statement_counterexample :
    (cached_db_query (fun _ => "3 rows deleted") 0 ⟨[], []⟩
      "DELETE FROM people").2 = "3 rows deleted" ∧
    successCount (cached_db_query (fun _ => "3 rows deleted") 0 ⟨[], []⟩
      "DELETE FROM people").1 "DELETE FROM people" = 1 ∧
    tableGet (cached_db_query (fun _ => "3 rows deleted") 0 ⟨[], []⟩
        "DELETE FROM people").1.query_cache (md5_hex "DELETE FROM people") =
      some ⟨"DELETE FROM people", "3 rows deleted", 0⟩ :=
  ⟨rfl, rfl, rfl⟩

/-- C2 amended: the execution path performs no statement-kind check at all —
every uncached statement, mutating kinds included, is dispatched to the
store, its (possibly error) result is written to the cache under the
statement's signature, and exactly one feedback counter is incremented;
avoidance of mutating statements is delegated to the LLM prompt ("No DML
statements"), not enforced by code. -/
theorem mutating_statement_dispatched (dbRun : String → String) (now : Nat)
    (st : Store) (q : String)
    (hmiss : tableGet st.query_cache (md5_hex q) = none) :
    (cached_db_query dbRun now st q).2 =
      (if dbRun q = "" then
        "Error: Query failed. Please rewrite your query and try again."
      else dbRun q) ∧
    tableGet (cached_db_query dbRun now st q).1.query_cache (md5_hex q) =
      some ⟨q, if dbRun q = "" then
          "Error: Query failed. Please rewrite your query and try again."
        else dbRun q, now⟩ ∧
    successCount (cached_db_query dbRun now st q).1 q +
        failureCount (cached_db_query dbRun now st q).1 q =
      successCount st q + failureCount st q + 1 := by
  rw [cached_db_query_miss dbRun now st q hmiss]
  refine ⟨rfl, ?_, ?_⟩
  · simp [tableGet_tableUpsert_self, hmiss]
  · by_cases hr : dbRun q = ""
    · simp only [hr, if_pos]
      show successCount (record_query_failure st q now) q +
        failureCount (record_query_failure st q now) q = _
      rw [successCount_record_failure, failureCount_record_failure]
      omega
    · simp only [hr, if_neg, ite_false]
      show successCount (record_query_success st q now) q +
        failureCount (record_query_success st q now) q = _
      rw [successCount_record_success, failureCount_record_success]
      omega

theorem mutating_statement_dispatched_witness :
    tableGet (Store.mk [] []).query_cache (md5_hex "SELECT 1") = none ∧
    ((cached_db_query (fun _ => "ok") 0 ⟨[], []⟩ "SELECT 1").2 = "ok" ∧
     tableGet (cached_db_query (fun _ => "ok") 0 ⟨[], []⟩
         "SELECT 1").1.query_cache (md5_hex "SELECT 1") =
       some ⟨"SELECT 1", "ok", 0⟩ ∧
     successCount (cached_db_query (fun _ => "ok") 0 ⟨[], []⟩ "SELECT 1").1
         "SELECT 1" +
       failureCount (cached_db_query (fun _ => "ok") 0 ⟨[], []⟩ "SELECT 1").1
         "SELECT 1" =
       successCount ⟨[], []⟩ "SELECT 1" + failureCount ⟨[], []⟩ "SELECT 1" + 1) :=
  ⟨rfl, mutating_statement_dispatched (fun _ => "ok") 0 ⟨[], []⟩ "SELECT 1" rfl⟩

/-- C3 counterexample: on a cache hit the wrapped tool returns the cached
result without touching the store (the fresh store response is not
consulted) and without any feedback write — the whole store state is
returned unchanged and the signature's success counter remains 0, so
`recordSuccess` is *not* called on cache hits. -/
theorem cache_hit_counterexample :
    cached_db_query (fun _ => "fresh from db") 5
      ⟨[(md5_hex "SELECT 1", ⟨"SELECT 1", "cached result", 0⟩)], []⟩
      "SELECT 1" =
      (⟨[(md5_hex "SELECT 1", ⟨"SELECT 1", "cached result", 0⟩)], []⟩,
       "cached result") ∧
    successCount
      (cached_db_query (fun _ => "fresh from db") 5
        ⟨[(md5_hex "SELECT 1", ⟨"SELECT 1", "cached result", 0⟩)], []⟩
        "SELECT 1").1 "SELECT 1" = 0 :=
  ⟨rfl, rfl⟩

/-- C3 amended: a cache hit returns the cached result and skips the store
round-trip, but performs no feedback write either — the store state
(feedback counters included) is returned exactly unchanged; success is
recorded only on fresh executions. -/
theorem cache_hit_no_feedback (dbRun : String → String) (now : Nat)
    (st : Store) (q : String) (row : CacheRow)
    (hhit : tableGet st.query_cache (md5_hex q) = some row) :
    cached_db_query dbRun now st q = (st, row.result) :=
  cached_db_query_hit dbRun now st q row hhit

theorem cache_hit_no_feedback_witness :
    tableGet (Store.mk [(md5_hex "Q", ⟨"Q", "R", 1⟩)] []).query_cache
      (md5_hex "Q") = some ⟨"Q", "R", 1⟩ ∧
    cached_db_query (fun _ => "ignored") 9
      ⟨[(md5_hex "Q", ⟨"Q", "R", 1⟩)], []⟩ "Q" =
      (⟨[(md5_hex "Q", ⟨"Q", "R", 1⟩)], []⟩, "R") :=
  ⟨rfl, cache_hit_no_feedback (fun _ => "ignored") 9
    ⟨[(md5_hex "Q", ⟨"Q", "R", 1⟩)], []⟩ "Q" ⟨"Q", "R", 1⟩ rfl⟩

/-- C7 counterexample: the signature is the md5 of the *raw* query text —
no whitespace trimming happens — so two query texts that are identical
after trimming (here `" q"` and `"q"`) do *not* share a signature. -/
theorem signature_trim_counterexample :
    pyStrip " q" = pyStrip "q" ∧ md5_hex " q" ≠ md5_hex "q" :=
  ⟨by decide, by decide⟩

/-- C7 amended: the signature is a deterministic content hash (md5 hex
digest) of the raw, untrimmed, case-preserved query text.  Identical texts
always yield the same signature: after a first call caches a result for a
query, a second call with the byte-identical text hits the cache and
returns the same result, whatever the store or clock do in between.
Texts differing only in surrounding whitespace do not, in general, share a
signature (see the counterexample). -/
theorem signature_idempotent_lookup (dbRun dbRun2 : String → String)
    (now now2 : Nat) (st : Store) (q : String)
    (hmiss : tableGet st.query_cache (md5_hex q) = none) :
    cached_db_query dbRun2 now2 (cached_db_query dbRun now st q).1 q =
      ((cached_db_query dbRun now st q).1, (cached_db_query dbRun now st q).2) := by
  rw [cached_db_query_miss dbRun now st q hmiss]
  rw [cached_db_query_hit dbRun2 now2 _ q
    ⟨q, if dbRun q = "" then
        "Error: Query failed. Please rewrite your query and try again."
      else dbRun q, now⟩
    (by simp [tableGet_tableUpsert_self, hmiss])]

theorem signature_idempotent_lookup_witness :
    tableGet (Store.mk [] []).query_cache (md5_hex "SELECT 2") = none ∧
    cached_db_query (fun _ => "r2") 8
      (cached_db_query (fun _ => "r1") 7 ⟨[], []⟩ "SELECT 2").1 "SELECT 2" =
      ((cached_db_query (fun _ => "r1") 7 ⟨[], []⟩ "SELECT 2").1,
       (cached_db_query (fun _ => "r1") 7 ⟨[], []⟩ "SELECT 2").2) :=
  ⟨rfl, signature_idempotent_lookup (fun _ => "r1") (fun _ => "r2") 7 8
    ⟨[], []⟩ "SELECT 2" rfl⟩

/-- C8 counterexample: `last_call_time` is only rewritten when an uncached
`agent.invoke` completes without raising, so after a failed invocation the
next caller is granted earlier than `minDelay` after the previous grant.
With `min_delay = 2` and `last_call_time = 0`: a backend invocation is
granted at instant 5 and raises (leaving `last_call_time` at 0), and the
next invocation is then granted at instant 6 — only 1 < 2 after the
previous granted acquisition. -/
theorem rate_limiter_counterexample :
    (rl_invoke_step 2 0 5 false false 0).1 = 5 ∧
    (rl_invoke_step 2 0 5 false false 0).2 = 0 ∧
    (rl_invoke_step 2 0 6 false true 0).1 = 6 ∧
    (6 : Int) - 5 < 2 := by
  refine ⟨?_, ?_, ?_, ?_⟩ <;> decide

/-- C8 amended: the gate suspends until at least `minDelay` after the
*recorded* `last_call_time` — the completion instant of the last successful
uncached invocation — never waking early and never delaying a caller that
is already late; and with `minDelay = 0` it is a pass-through that never
sleeps.  (Spacing relative to the previous *granted acquisition* holds only
when that acquisition completed successfully; see the counterexample.) -/
theorem rate_limiter_spacing_amended (minDelay lastCall now : Int)
    (h : lastCall ≤ now) :
    lastCall + minDelay ≤ rl_acquire minDelay lastCall now ∧
    now ≤ rl_acquire minDelay lastCall now ∧
    (minDelay = 0 → rl_acquire minDelay lastCall now = now) := by
  by_cases hc : now - lastCall < minDelay
  · rw [rl_acquire, if_pos hc]
    exact ⟨by omega, by omega, fun h0 => by omega⟩
  · rw [rl_acquire, if_neg hc]
    exact ⟨by omega, by omega, fun _ => rfl⟩

theorem rate_limiter_spacing_amended_witness :
    (0 : Int) ≤ 3 ∧
    ((0 : Int) + 2 ≤ rl_acquire 2 0 3 ∧ (3 : Int) ≤ rl_acquire 2 0 3 ∧
      ((2 : Int) = 0 → rl_acquire 2 0 3 = 3)) :=
  ⟨by decide, rate_limiter_spacing_amended 2 0 3 (by decide)⟩

/-- A string literally built as `p ++ r` starts with `p`. -/
theorem pyStartsWith_append (p r : String) : pyStartsWith (p ++ r) p = true := by
  simp only [pyStartsWith, String.data_append]
  rw [List.isPrefixOf_iff_prefix]
  exact List.prefix_append _ _

/-- Every correction message appended for a wrong tool call starts with
`"Error:"`. -/
theorem wrongToolMsg_starts_error (tc : ToolCall) :
    pyStartsWith (msgContent (wrongToolMsg tc)) "Error:" = true := by
  show pyStartsWith
    ("Error: The wrong tool was called: " ++ tc.name ++ ". Please fix your mistakes.")
    "Error:" = true
  have hsplit : ("Error: The wrong tool was called: " : String) =
      "Error:" ++ " The wrong tool was called: " := by decide
  rw [hsplit, String.append_assoc, String.append_assoc]
  exact pyStartsWith_append _ _

/-- The router sends every wrong-tool correction message back to
`query_gen`. -/
theorem agent_should_continue_wrongToolMsg (tc : ToolCall) :
    agent_should_continue (wrongToolMsg tc) = Route.queryGen := by
  show (if pyStartsWith (msgContent (wrongToolMsg tc)) "Error:" then Route.queryGen
    else Route.correctQuery) = Route.queryGen
  rw [wrongToolMsg_starts_error]
  rfl

/-- C9: whenever the backend's message in the Generate step carries a tool
call whose name is not `SubmitFinalAnswer`, `query_gen_node` appends an
explicit correction `ToolMessage` naming the wrong tool, and the
conditional edge routes the turn back to `query_gen` (Regenerate) — the
malformed turn is not silently dropped. -/
theorem wrong_tool_call_rerouted (m : Msg) (tc : ToolCall)
    (hmem : tc ∈ msgToolCalls m) (hname : tc.name ≠ "SubmitFinalAnswer") :
    wrongToolMsg tc ∈ query_gen_node m ∧
    agent_should_continue (((query_gen_node m).getLast?).getD (Msg.human "")) =
      Route.queryGen := by
  have hmem2 : wrongToolMsg tc ∈ (msgToolCalls m).filterMap (fun tc1 =>
      if tc1.name ≠ "SubmitFinalAnswer" then some (wrongToolMsg tc1) else none) := by
    rw [List.mem_filterMap]
    exact ⟨tc, hmem, by simp [hname]⟩
  have hne : (msgToolCalls m).filterMap (fun tc1 =>
      if tc1.name ≠ "SubmitFinalAnswer" then some (wrongToolMsg tc1) else none) ≠ [] := by
    intro hnil
    rw [hnil] at hmem2
    exact absurd hmem2 (List.not_mem_nil _)
  constructor
  · exact List.mem_cons_of_mem _ hmem2
  · have hlast1 : (query_gen_node m).getLast? =
        ((msgToolCalls m).filterMap (fun tc1 =>
          if tc1.name ≠ "SubmitFinalAnswer" then some (wrongToolMsg tc1) else none)).getLast? := by
      show (m :: _).getLast? = _
      rw [show (m :: (msgToolCalls m).filterMap (fun tc1 =>
          if tc1.name ≠ "SubmitFinalAnswer" then some (wrongToolMsg tc1) else none)) =
        [m] ++ (msgToolCalls m).filterMap (fun tc1 =>
          if tc1.name ≠ "SubmitFinalAnswer" then some (wrongToolMsg tc1) else none) from rfl]
      exact List.getLast?_append_of_ne_nil [m] hne
    rw [hlast1, List.getLast?_eq_getLast_of_ne_nil hne]
    have hmemlast := List.getLast_mem hne
    rw [List.mem_filterMap] at hmemlast
    obtain ⟨tc1, _, hf⟩ := hmemlast
    by_cases h1 : tc1.name = "SubmitFinalAnswer"
    · have hcond : ¬ (tc1.name ≠ "SubmitFinalAnswer") := by
        simp [h1]
      rw [if_neg hcond] at hf
      exact Option.noConfusion hf
    · rw [if_pos h1] at hf
      injection hf with hf2
      rw [Option.getD_some, ← hf2]
      exact agent_should_continue_wrongToolMsg tc1

theorem wrong_tool_call_rerouted_witness :
    (⟨"sql_db_query", .dict [], "tc1"⟩ : ToolCall) ∈
      msgToolCalls (.ai "let me run it" [⟨"sql_db_query", .dict [], "tc1"⟩]) ∧
    (⟨"sql_db_query", .dict [], "tc1"⟩ : ToolCall).name ≠ "SubmitFinalAnswer" ∧
    (wrongToolMsg ⟨"sql_db_query", .dict [], "tc1"⟩ ∈
        query_gen_node (.ai "let me run it" [⟨"sql_db_query", .dict [], "tc1"⟩]) ∧
      agent_should_continue
        (((query_gen_node (.ai "let me run it" [⟨"sql_db_query", .dict [], "tc1"⟩])).getLast?).getD
          (Msg.human "")) = Route.queryGen) :=
  ⟨List.mem_cons_self _ _, by decide,
    wrong_tool_call_rerouted (.ai "let me run it" [⟨"sql_db_query", .dict [], "tc1"⟩])
      ⟨"sql_db_query", .dict [], "tc1"⟩ (List.mem_cons_self _ _) (by decide)⟩

/-- The generation-step counter never increases past one per super-step. -/
theorem countInc_le_one (n : GNode) : countInc n ≤ 1 := by
  cases n <;> simp [countInc]

/-- Fuel-bounded execution: the `query_gen` node runs at most `fuel` times,
and the only error a run can produce is the recursion-limit error. -/
theorem runGraph_bound (o : Oracles) :
    ∀ (fuel : Nat) (n : GNode) (msgs : List Msg) (cnt : Nat),
      (runGraph o fuel n msgs cnt).2 ≤ cnt + fuel ∧
      ((∃ ms, (runGraph o fuel n msgs cnt).1 = .ok ms) ∨
        (runGraph o fuel n msgs cnt).1 = .error recursionErrorMsg) := by
  intro fuel
  induction fuel with
  | zero =>
      intro n msgs cnt
      exact ⟨Nat.le_refl _, Or.inr rfl⟩
  | succ f ih =>
      intro n msgs cnt
      have hinc := countInc_le_one n
      rw [runGraph]
      cases hnext : nextNode n (msgs ++ nodeStep o n msgs) with
      | none =>
          refine ⟨?_, Or.inl ⟨msgs ++ nodeStep o n msgs, rfl⟩⟩
          show cnt + countInc n ≤ cnt + (f + 1)
          omega
      | some n1 =>
          have h1 := (ih n1 (msgs ++ nodeStep o n msgs) (cnt + countInc n)).1
          have h2 := (ih n1 (msgs ++ nodeStep o n msgs) (cnt + countInc n)).2
          refine ⟨?_, ?_⟩
          · show (runGraph o f n1 (msgs ++ nodeStep o n msgs) (cnt + countInc n)).2 ≤
              cnt + (f + 1)
            omega
          · show (∃ ms, (runGraph o f n1 (msgs ++ nodeStep o n msgs)
                (cnt + countInc n)).1 = .ok ms) ∨
              (runGraph o f n1 (msgs ++ nodeStep o n msgs) (cnt + countInc n)).1 =
                .error recursionErrorMsg
            exact h2

/-- C4: for every oracle behaviour and every request, the compiled graph
executes the Generate/Regenerate node at most 100 times — the
`recursion_limit` ceiling passed by `process_user_query` — and when the
budget is exhausted before reaching `END`, the invocation surfaces the
recursion-limit (budget exhausted) error to the caller instead of looping
further; no other error is possible. -/
theorem regenerate_budget_bounded (o : Oracles) (q : String) :
    (runGraph o 100 GNode.firstToolCall [Msg.human q] 0).2 ≤ 100 ∧
    ((∃ ans, process_user_query o q = Except.ok ans) ∨
      process_user_query o q = Except.error recursionErrorMsg) := by
  have h := runGraph_bound o 100 .firstToolCall [.human q] 0
  refine ⟨by simpa using h.1, ?_⟩
  cases h.2 with
  | inl h1 =>
      obtain ⟨ms, hms⟩ := h1
      refine Or.inl ⟨extractFinalAnswer ((ms.getLast?).getD (Msg.human "")), ?_⟩
      simp [process_user_query, hms]
  | inr h1 =>
      exact Or.inr (by simp [process_user_query, h1])
